import Mathlib

/-!
Shallow embedding of the chan-mcp server: a bar-normalization pipeline over a
market-data provider (symbol/frequency mapping, numeric coercion, timestamp
composition, sorting), a session gateway bracketing fetches with login/logout,
a stroke/center structure analyzer with a divergence ("beichi") heuristic, and
the three tool responses built from them.

Modelling conventions:
* Python strings are Lean `String`; `str.lower`/`str.strip`/single-character
  `str.replace` are re-implemented over the character list so that the kernel
  can evaluate them.
* Python floats are modelled as `Int` (only ordered-ring operations — `-`,
  `abs`, `≤`, `<` — are applied to prices in the source, and `abs` is embedded
  explicitly as `pyAbs`).  A value produced by `pd.to_numeric(errors="coerce")`
  is `Option Int`, with `none` standing for NaN; a Python value on which
  `float(...)` may raise is `PyNum`, with `PyNum.bad` standing for a
  non-convertible value.
* Timestamps are `Nat` keys; `pd.to_datetime(..., errors="coerce")` is an
  oracle `String → Option Nat` passed in as a parameter, `none` standing
  for NaT.
* The provider (baostock), the structural engine (czsc) and the signal
  functions are external collaborators: their outputs (raw string rows,
  stroke/center lists, signal results) are parameters of the embedded
  functions, exactly where the source consumes them.
* Python `raise` is `Except.error`; a `dict` response is an association list
  `List (String × RVal)` in insertion order.
-/

namespace ChanMcp

deriving instance DecidableEq for Except

/-! ## Python string primitives (character-list implementations) -/

/-- `str.lower`. -/
def pyLower (s : String) : String := ⟨s.data.map Char.toLower⟩

/-- `str.strip`. -/
def pyStrip (s : String) : String :=
  ⟨((s.data.dropWhile Char.isWhitespace).reverse.dropWhile Char.isWhitespace).reverse⟩

/-- `str.replace` for a single-character pattern (the only form the source
uses), which coincides with a character map. -/
def pyReplaceChar (old new : Char) (s : String) : String :=
  ⟨s.data.map (fun c => if c = old then new else c)⟩

/-- `str.endswith` for a single-character suffix. -/
def pyEndsWith (suffix : Char) (s : String) : Bool :=
  match s.data.reverse with
  | [] => false
  | c :: _ => c = suffix

/-- Python `s[:-1]`. -/
def dropLastChar (s : String) : String := ⟨s.data.dropLast⟩

/-- `str.isdigit` (non-empty and all digits). -/
def isDigitStr (s : String) : Bool := !s.data.isEmpty && s.data.all Char.isDigit

/-- Python `abs` on a price value. -/
def pyAbs (x : Int) : Int := if x < 0 then -x else x

/-! ## Bar Normalizer: symbol / frequency / date-range mapping
(`normalize_symbol`, `map_freq_to_baostock`, `ensure_dates` in
`datasource/baostock_client.py`). -/

/-- `normalize_symbol`: `symbol.strip().lower().replace("_", ".").replace("-", ".")`. -/
def normalize_symbol (symbol : String) : String :=
  pyReplaceChar '-' '.' (pyReplaceChar '_' '.' (pyLower (pyStrip symbol)))

/-- The literal alias dictionary inside `map_freq_to_baostock`. -/
def freqMapping : List (String × String) :=
  [("5m", "5"), ("15m", "15"), ("30m", "30"), ("60m", "60"),
   ("d", "d"), ("w", "w"), ("m", "m"), ("day", "d"), ("daily", "d")]

/-- `map_freq_to_baostock`: lowercase, look up the alias dictionary, then the
two fallback membership tests, else `raise ValueError`. -/
def map_freq_to_baostock (freq : String) : Except String String :=
  let f := pyLower freq
  match freqMapping.lookup f with
  | some v => .ok v
  | none =>
    if pyEndsWith 'm' f && isDigitStr (dropLastChar f)
        && ["5m", "15m", "30m", "60m"].contains f then
      .ok (dropLastChar f)
    else if ["5", "15", "30", "60", "d", "w", "m"].contains f then
      .ok f
    else
      .error ("Unsupported freq: " ++ freq)

/-- `ensure_dates`: `start_date or ""`, `end_date or ""` (absent and empty both
become the empty string). -/
def ensure_dates (start_date end_date : Option String) : String × String :=
  (start_date.getD "", end_date.getD "")

/-! ## Bar Normalizer: fetch pipeline (`fetch_bars_df`, `to_rawbars`). -/

/-- One raw provider row: the string fields of `rs.get_row_data()` that the
pipeline consumes (the frequency classes carry further fields, all passed
through untouched; only these participate in the logic). -/
structure ProviderRow where
  date : String
  time : String
  code : String
  «open» : String
  high : String
  low : String
  close : String
  volume : String
  amount : String
deriving DecidableEq, Repr

/-- A row after numeric coercion and timestamp composition, i.e. one row of
the dataframe just before `dropna`/`sort_values`.  `none` in a numeric field
is NaN; `none` in `datetime` is NaT. -/
structure CoercedRow where
  code : String
  «open» : Option Int
  high : Option Int
  low : Option Int
  close : Option Int
  volume : Option Int
  amount : Option Int
  datetime : Option Nat
deriving DecidableEq, Repr

/-- Numeric coercion plus timestamp composition for one row: minute
frequencies concatenate `date + " " + time`, all others parse `date` alone. -/
def coerce_row (parseNum : String → Option Int) (parseDt : String → Option Nat)
    (freq : String) (r : ProviderRow) : CoercedRow :=
  { code := r.code,
    «open» := parseNum r.«open»,
    high := parseNum r.high,
    low := parseNum r.low,
    close := parseNum r.close,
    volume := parseNum r.volume,
    amount := parseNum r.amount,
    datetime :=
      if ["5", "15", "30", "60"].contains freq then
        parseDt (r.date ++ " " ++ r.time)
      else
        parseDt r.date }

/-- Comparison key of `sort_values("datetime")` (rows reaching the sort all
carry a parsed timestamp). -/
def rowLe (a b : CoercedRow) : Bool := a.datetime.getD 0 ≤ b.datetime.getD 0

/-- Insert into a sorted list (one step of the comparison sort). -/
def insertRow (r : CoercedRow) : List CoercedRow → List CoercedRow
  | [] => [r]
  | x :: xs => if rowLe r x then r :: x :: xs else x :: insertRow r xs

/-- The comparison sort behind `sort_values("datetime")`. -/
def sortRows : List CoercedRow → List CoercedRow
  | [] => []
  | r :: rs => insertRow r (sortRows rs)

/-- Tail of `fetch_bars_df`: coerce every drained row, drop rows whose
timestamp failed to parse (`dropna(subset=["datetime"])`), sort ascending by
timestamp.  The provider's drained rows are the `rows` parameter. -/
def fetch_bars_df (parseNum : String → Option Int) (parseDt : String → Option Nat)
    (freq : String) (rows : List ProviderRow) : List CoercedRow :=
  sortRows (((rows.map (coerce_row parseNum parseDt freq)).filter
    (fun r => r.datetime.isSome)))

/-- Canonical bar emitted by `to_rawbars`: `float(...)` of a possibly-NaN
column stays possibly-NaN (`Option Int`), never a string. -/
structure Bar where
  symbol : String
  code : String
  dt : Nat
  «open» : Option Int
  close : Option Int
  high : Option Int
  low : Option Int
  vol : Option Int
  amount : Option Int
deriving DecidableEq, Repr

/-- `to_rawbars`: row-wise projection of the fetched dataframe into canonical
bar records, in dataframe order. -/
def to_rawbars (df : List CoercedRow) (symbol : String) : List Bar :=
  df.map (fun r =>
    { symbol := symbol,
      code := r.code,
      dt := r.datetime.getD 0,
      «open» := r.«open»,
      close := r.close,
      high := r.high,
      low := r.low,
      vol := r.volume,
      amount := r.amount })

/-! ## Tool surface: `get_bars_local` (`tools/market_tools.py`). -/

/-- The `get_bars` response dictionary. -/
structure BarsPayload where
  symbol : String
  freq : String
  start_date : String
  end_date : String
  count : Nat
  bars : List Bar
deriving DecidableEq, Repr

/-- `get_bars_local`: normalize the symbol, resolve dates, map the frequency
(raising on an unsupported label), fetch, project to canonical bars.  The
provider's row data for this query is the `rows` parameter; `adjustflag` is
forwarded to the provider as part of the query that produced `rows`. -/
def get_bars_local (parseNum : String → Option Int) (parseDt : String → Option Nat)
    (symbol : String) (start_date end_date : Option String) (freq adjustflag : String)
    (rows : List ProviderRow) : Except String BarsPayload :=
  let s := normalize_symbol symbol
  let sd := (ensure_dates start_date end_date).1
  let ed := (ensure_dates start_date end_date).2
  match map_freq_to_baostock freq with
  | .error e => .error e
  | .ok bo_freq =>
    let _ := adjustflag
    let df := fetch_bars_df parseNum parseDt bo_freq rows
    let bars := to_rawbars df s
    .ok { symbol := s, freq := freq, start_date := sd, end_date := ed,
          count := bars.length, bars := bars }

/-! ## Session gateway (`baostock_login` / `try ... finally baostock_logout`). -/

/-- Observable provider-session calls, in order. -/
inductive SessionEvent where
  | loginCall
  | queryCall
  | logoutCall
deriving DecidableEq, Repr

/-- `baostock_logout`: calls `bs.logout()` (whose outcome is the parameter)
inside `try: ... except Exception: pass`, so it records the call and never
raises. -/
def baostock_logout (logoutRes : Except String Unit) : List SessionEvent × Except String Unit :=
  ([SessionEvent.logoutCall],
   match logoutRes with
   | .ok _ => .ok ()
   | .error _ => .ok ())

/-- The session bracket of `get_bars_local`:
`baostock_login(); try: fetch finally: baostock_logout()`.  `loginRes`,
`fetchRes`, `logoutRes` are the outcomes of the three collaborator calls.  A
`finally` block that raised would mask the fetch result, which the embedding
makes explicit in the dead `.error` branch. -/
def fetch_with_session {α : Type} (loginRes : Except String Unit)
    (logoutRes : Except String Unit) (fetchRes : Except String α) :
    List SessionEvent × Except String α :=
  match loginRes with
  | .error msg => ([SessionEvent.loginCall], .error ("baostock login failed: " ++ msg))
  | .ok _ =>
    let lg := baostock_logout logoutRes
    let events := SessionEvent.loginCall :: SessionEvent.queryCall :: lg.1
    match lg.2 with
    | .error e => (events, .error e)
    | .ok _ => (events, fetchRes)

/-! ## Signal Extractor (`chan_basic_signals` in `analysis/czsc_analysis.py`). -/

/-- `chan_basic_signals`: two fixed signal invocations, each wrapped in
`try: ... append ... except Exception: pass`, appended in program order.
`fx_sig` and `power_sig` are the outcomes of the two collaborator calls. -/
def chan_basic_signals {V : Type} (fx_sig power_sig : Except String V) :
    List (String × V) :=
  (match fx_sig with
   | .ok v => [("cxt_fxs_fx_is_inside_b1", v)]
   | .error _ => []) ++
  (match power_sig with
   | .ok v => [("bar_zdt_power_V230313", v)]
   | .error _ => [])

/-! ## Structure Analyzer (`analyze_structure`). -/

/-- A Python value that `float(...)` either converts or raises on. -/
inductive PyNum where
  | num : Int → PyNum
  | bad : PyNum
deriving DecidableEq, Repr

/-- `float(v)`. -/
def pyFloat : PyNum → Except String Int
  | .num q => .ok q
  | .bad => .error "float conversion failed"

/-- A stroke object coming out of the structural engine, restricted to the
attributes `analyze_structure` reads (`getattr` that may be absent is an
`Option`; extremes may be non-convertible). -/
structure Stroke where
  direction : Option String
  high : PyNum
  low : PyNum
  start_dt : Option String
  end_dt : Option String
deriving DecidableEq, Repr

/-- A center object coming out of the structural engine, restricted to the
attributes the `zs` branch reads. -/
structure Center where
  zg : PyNum
  zd : PyNum
  start_dt : Option String
  end_dt : Option String
deriving DecidableEq, Repr

/-- One element of the `items` list (the emitted per-stroke / per-center
attribute dictionary, carried as the underlying record). -/
inductive StructItem where
  | biItem : Stroke → StructItem
  | zsItem : Center → StructItem
deriving DecidableEq, Repr

/-- The emitted `beichi` dictionary. -/
structure Beichi where
  type : String
  last_start : Option String
  last_end : Option String
  prev_start : Option String
  prev_end : Option String
deriving DecidableEq, Repr

/-- The `{items, beichi}` result of `analyze_structure`. -/
structure StructResult where
  items : List StructItem
  beichi : Option Beichi
deriving DecidableEq, Repr

/-- Membership in `{"up", "down", "向上", "向下"}`. -/
def recognizedDir (d : Option String) : Bool :=
  d == some "up" || d == some "down" || d == some "向上" || d == some "向下"

/-- Membership in `{"up", "向上"}`. -/
def isUpLabel (d : Option String) : Bool := d == some "up" || d == some "向上"

/-- Membership in `{"down", "向下"}`. -/
def isDownLabel (d : Option String) : Bool := d == some "down" || d == some "向下"

/-- The backward scan over the filtered stroke list: the first element of the
reversed list becomes `last`; the first later element (in reversed order)
sharing `last`'s direction becomes `prev`; strokes of other directions are
skipped. -/
def findLastPrev (same_dir : List Stroke) : Option Stroke × Option Stroke :=
  match same_dir.reverse with
  | [] => (none, none)
  | last :: rest => (some last, rest.find? (fun b => b.direction == last.direction))

/-- The body of the `try` block computing the divergence: the four
`float(getattr(...))` conversions (any of which may raise), swing lengths as
`abs(high - low)`, and the bearish/bullish classification. -/
def computeBeichi (last prev : Stroke) : Except String (Option Beichi) :=
  match pyFloat last.high, pyFloat last.low, pyFloat prev.high, pyFloat prev.low with
  | .ok lh, .ok ll, .ok ph, .ok pl =>
    let last_len := pyAbs (lh - ll)
    let prev_len := pyAbs (ph - pl)
    let direction := last.direction
    let bearish := isUpLabel direction && decide (lh ≤ ph) && decide (last_len < prev_len)
    let bullish := isDownLabel direction && decide (pl ≤ ll) && decide (last_len < prev_len)
    if bearish || bullish then
      .ok (some { type := if bearish then "bearish" else "bullish",
                  last_start := last.start_dt, last_end := last.end_dt,
                  prev_start := prev.start_dt, prev_end := prev.end_dt })
    else
      .ok none
  | .error e, _, _, _ => .error e
  | _, .error e, _, _ => .error e
  | _, _, .error e, _ => .error e
  | _, _, _, .error e => .error e

/-- `analyze_structure`, taking the structural engine's stroke and center
lists for the fetched bars as collaborator outputs.  `level = "bi"` emits
stroke items and runs the divergence scan, any exception in the `try` block
leaving `beichi = None`; any other level emits center items. -/
def analyze_structure (bi_list : List Stroke) (zs_list : List Center)
    (level : String) : StructResult :=
  if level = "bi" then
    let items := bi_list.map StructItem.biItem
    let same_dir := bi_list.filter (fun b => recognizedDir b.direction)
    let beichi : Option Beichi :=
      match findLastPrev same_dir with
      | (some last, some prev) =>
        match computeBeichi last prev with
        | .ok b => b
        | .error _ => none
      | _ => none
    { items := items, beichi := beichi }
  else
    { items := zs_list.map StructItem.zsItem, beichi := none }

/-! ## Tool surface: `chan_signals_local`, `chan_structure_local`. -/

/-- A JSON-serializable value inside a tool response dictionary. -/
inductive RVal where
  | vstr : String → RVal
  | vnat : Nat → RVal
  | vitems : List StructItem → RVal
  | vbeichi : Option Beichi → RVal
  | vsignals : List (String × Nat) → RVal
deriving DecidableEq, Repr

/-- The key list of a successful response dictionary. -/
def respKeys (r : Except String (List (String × RVal))) : List String :=
  match r with
  | .ok kvs => kvs.map Prod.fst
  | .error _ => []

/-- `chan_signals_local`: fetch bars via `get_bars_local`; with no bars,
short-circuit with the raw input symbol; otherwise run the signal extractor
(whose two collaborator outcomes are `fx_sig`, `power_sig`). -/
def chan_signals_local (parseNum : String → Option Int) (parseDt : String → Option Nat)
    (symbol : String) (start_date end_date : Option String) (freq adjustflag : String)
    (rows : List ProviderRow) (fx_sig power_sig : Except String Nat) :
    Except String (List (String × RVal)) :=
  match get_bars_local parseNum parseDt symbol start_date end_date freq adjustflag rows with
  | .error e => .error e
  | .ok payload =>
    let bars := payload.bars
    if bars.isEmpty then
      .ok [("symbol", .vstr symbol), ("freq", .vstr freq),
           ("signals", .vsignals []), ("count", .vnat 0)]
    else
      .ok [("symbol", .vstr payload.symbol), ("freq", .vstr freq),
           ("count", .vnat bars.length),
           ("signals", .vsignals (chan_basic_signals fx_sig power_sig))]

/-- `chan_structure_local`: fetch bars via `get_bars_local`; with no bars,
short-circuit (note: no `count` key) with the raw input symbol; otherwise run
`analyze_structure` on the engine's stroke/center lists for these bars
(`bi_of`, `zs_of` are the engine as a collaborator). -/
def chan_structure_local (parseNum : String → Option Int) (parseDt : String → Option Nat)
    (symbol : String) (start_date end_date : Option String) (freq adjustflag level : String)
    (rows : List ProviderRow)
    (bi_of : List Bar → List Stroke) (zs_of : List Bar → List Center) :
    Except String (List (String × RVal)) :=
  match get_bars_local parseNum parseDt symbol start_date end_date freq adjustflag rows with
  | .error e => .error e
  | .ok payload =>
    let bars := payload.bars
    if bars.isEmpty then
      .ok [("symbol", .vstr symbol), ("freq", .vstr freq), ("level", .vstr level),
           ("items", .vitems []), ("beichi", .vbeichi none)]
    else
      let struct := analyze_structure (bi_of bars) (zs_of bars) level
      .ok [("symbol", .vstr payload.symbol), ("freq", .vstr freq), ("level", .vstr level),
           ("count", .vnat bars.length), ("items", .vitems struct.items),
           ("beichi", .vbeichi struct.beichi)]

/-- Lookup of one key in a successful response dictionary. -/
def respLookup (key : String) (r : Except String (List (String × RVal))) : Option RVal :=
  match r with
  | .ok kvs => kvs.lookup key
  | .error _ => none

/-! ## Concrete test fixtures (used by witnesses and counterexamples). -/

/-- Test numeric-parsing oracle: parses only the digit string `"3"`. -/
def pnTest : String → Option Int := fun s => if s = "3" then some 3 else none

/-- Test timestamp-parsing oracle: parses two dates, NaT elsewhere. -/
def pdTest : String → Option Nat := fun s =>
  if s = "2024-01-02" then some 1 else if s = "2024-01-03" then some 2 else none

/-- A fully parseable daily provider row. -/
def rowGood : ProviderRow :=
  ⟨"2024-01-02", "", "sh.600000", "3", "3", "3", "3", "3", "3"⟩

/-- A second parseable row sharing `rowGood`'s timestamp (a duplicate `dt`). -/
def rowGood2 : ProviderRow :=
  ⟨"2024-01-02", "", "sh.600001", "3", "3", "3", "3", "3", "3"⟩

/-- A row with a parseable date but a non-numeric `open` field. -/
def rowBadOpen : ProviderRow :=
  ⟨"2024-01-02", "", "sh.600000", "x", "3", "3", "3", "3", "3"⟩

/-- `rowGood` after coercion. -/
def coercedGood : CoercedRow :=
  ⟨"sh.600000", some 3, some 3, some 3, some 3, some 3, some 3, some 1⟩

/-- The canonical bar produced from `rowGood`. -/
def barGood : Bar :=
  ⟨"sh.600000", "sh.600000", 1, some 3, some 3, some 3, some 3, some 3, some 3⟩

/-- The `get_bars` payload for `[rowGood]`. -/
def payloadGood : BarsPayload := ⟨"sh.600000", "d", "", "", 1, [barGood]⟩

/-- The `get_bars` payload for an empty provider result. -/
def payloadEmpty : BarsPayload := ⟨"sh.600000", "d", "", "", 0, []⟩

/-- An earlier up-stroke with swing 10 (high 10, low 0). -/
def upStrokeA : Stroke :=
  ⟨some "up", .num 10, .num 0, some "2024-01-01T00:00:00", some "2024-01-02T00:00:00"⟩

/-- A later up-stroke with lower high 9 and smaller swing 4 (high 9, low 5). -/
def upStrokeB : Stroke :=
  ⟨some "up", .num 9, .num 5, some "2024-01-03T00:00:00", some "2024-01-04T00:00:00"⟩

/-- An up-stroke whose `high` is not float-convertible. -/
def upStrokeBad : Stroke := ⟨some "up", .bad, .num 5, some "x", some "y"⟩

/-! ## Helper lemmas about the comparison sort. -/

theorem mem_insertRow {x r : CoercedRow} {l : List CoercedRow} :
    x ∈ insertRow r l ↔ x = r ∨ x ∈ l := by
  induction l with
  | nil => simp [insertRow]
  | cons y ys ih =>
    simp only [insertRow]
    by_cases h : rowLe r y
    · simp [h]
    · simp only [Bool.not_eq_true] at h
      simp [h, ih]
      tauto

theorem mem_sortRows {x : CoercedRow} {l : List CoercedRow} :
    x ∈ sortRows l ↔ x ∈ l := by
  induction l with
  | nil => simp [sortRows]
  | cons y ys ih => simp [sortRows, mem_insertRow, ih]

theorem pairwise_insertRow {r : CoercedRow} {l : List CoercedRow}
    (hl : l.Pairwise (fun a b => rowLe a b = true)) :
    (insertRow r l).Pairwise (fun a b => rowLe a b = true) := by
  induction l with
  | nil => simp [insertRow]
  | cons y ys ih =>
    rcases List.pairwise_cons.mp hl with ⟨hy, hys⟩
    simp only [insertRow]
    by_cases h : rowLe r y
    · rw [if_pos h]
      refine List.Pairwise.cons ?_ hl
      intro b hb
      rcases List.mem_cons.mp hb with rfl | hb
      · exact h
      · have hyb := hy b hb
        simp only [rowLe, decide_eq_true_eq] at *
        omega
    · rw [if_neg h]
      refine List.Pairwise.cons ?_ (ih hys)
      intro b hb
      rcases mem_insertRow.mp hb with rfl | hb
      · simp only [rowLe, decide_eq_true_eq] at *
        omega
      · exact hy b hb

theorem pairwise_sortRows (l : List CoercedRow) :
    (sortRows l).Pairwise (fun a b => rowLe a b = true) := by
  induction l with
  | nil => simp [sortRows]
  | cons r rs ih => exact pairwise_insertRow ih

/-! ## Helper lemmas about the frequency mapping. -/

theorem map_freq_error_of_not_mem (freq : String)
    (h : pyLower freq ∉ (["5m", "15m", "30m", "60m", "d", "w", "m", "day", "daily",
                          "5", "15", "30", "60"] : List String)) :
    map_freq_to_baostock freq = .error ("Unsupported freq: " ++ freq) := by
  simp only [List.mem_cons, List.not_mem_nil, or_false, not_or] at h
  obtain ⟨h1, h2, h3, h4, h5, h6, h7, h8, h9, h10, h11, h12, h13⟩ := h
  have e1 : (pyLower freq == "5m") = false := beq_eq_false_iff_ne.mpr h1
  have e2 : (pyLower freq == "15m") = false := beq_eq_false_iff_ne.mpr h2
  have e3 : (pyLower freq == "30m") = false := beq_eq_false_iff_ne.mpr h3
  have e4 : (pyLower freq == "60m") = false := beq_eq_false_iff_ne.mpr h4
  have e5 : (pyLower freq == "d") = false := beq_eq_false_iff_ne.mpr h5
  have e6 : (pyLower freq == "w") = false := beq_eq_false_iff_ne.mpr h6
  have e7 : (pyLower freq == "m") = false := beq_eq_false_iff_ne.mpr h7
  have e8 : (pyLower freq == "day") = false := beq_eq_false_iff_ne.mpr h8
  have e9 : (pyLower freq == "daily") = false := beq_eq_false_iff_ne.mpr h9
  have e10 : (pyLower freq == "5") = false := beq_eq_false_iff_ne.mpr h10
  have e11 : (pyLower freq == "15") = false := beq_eq_false_iff_ne.mpr h11
  have e12 : (pyLower freq == "30") = false := beq_eq_false_iff_ne.mpr h12
  have e13 : (pyLower freq == "60") = false := beq_eq_false_iff_ne.mpr h13
  simp [map_freq_to_baostock, freqMapping, List.lookup, List.contains, List.elem,
    e1, e2, e3, e4, e5, e6, e7, e8, e9, e10, e11, e12, e13]

/-! ## C3 -/

/-- C3 counterexample: the input `"5"` is outside the documented alias set
`{5m,15m,30m,60m,d,w,m,day,daily}`, yet `map_freq_to_baostock` accepts it and
returns `"5"` instead of raising, so the claim "every input outside the
documented alias set raises" is false. -/
theorem map_freq_bare_code_cex :
    map_freq_to_baostock "5" = .ok "5" ∧
    "5" ∉ (["5m", "15m", "30m", "60m", "d", "w", "m", "day", "daily"] : List String) := by
  constructor
  · decide
  · decide

/-- C3 (amended): the nine documented aliases map to their documented provider
codes, the four bare minute codes `5,15,30,60` are additionally accepted
unchanged, and an input succeeds exactly when its lowercasing lies in the
alias set extended by the bare provider codes; everything else raises
`Unsupported freq`. -/
theorem map_freq_amended (freq : String) :
    (map_freq_to_baostock "5m" = .ok "5" ∧ map_freq_to_baostock "15m" = .ok "15" ∧
     map_freq_to_baostock "30m" = .ok "30" ∧ map_freq_to_baostock "60m" = .ok "60" ∧
     map_freq_to_baostock "d" = .ok "d" ∧ map_freq_to_baostock "w" = .ok "w" ∧
     map_freq_to_baostock "m" = .ok "m" ∧ map_freq_to_baostock "day" = .ok "d" ∧
     map_freq_to_baostock "daily" = .ok "d" ∧
     map_freq_to_baostock "5" = .ok "5" ∧ map_freq_to_baostock "15" = .ok "15" ∧
     map_freq_to_baostock "30" = .ok "30" ∧ map_freq_to_baostock "60" = .ok "60") ∧
    ((∃ v, map_freq_to_baostock freq = .ok v) ↔
      pyLower freq ∈ (["5m", "15m", "30m", "60m", "d", "w", "m", "day", "daily",
                       "5", "15", "30", "60"] : List String)) := by
  constructor
  · decide
  · constructor
    · rintro ⟨v, hv⟩
      by_contra hmem
      rw [map_freq_error_of_not_mem freq hmem] at hv
      exact Except.noConfusion hv
    · intro hmem
      simp only [List.mem_cons, List.not_mem_nil, or_false] at hmem
      rcases hmem with h | h | h | h | h | h | h | h | h | h | h | h | h <;>
        exact ⟨_, by simp only [map_freq_to_baostock]; rw [h]; rfl⟩

/-- C3 witness: `"xyz"` lies outside the accepted set, so the amended theorem
yields that the mapping raises on it. -/
theorem map_freq_amended_witness :
    ¬ ∃ v, map_freq_to_baostock "xyz" = .ok v := by
  intro hx
  have h := (map_freq_amended "xyz").2.mp hx
  revert h
  decide

/-! ## C6 -/

/-- C6: once login succeeded, the logout call appears in the session trace on
every exit path of the fetch (success or raise), and the bracket's result is
exactly the fetch's outcome for every possible logout outcome — a logout
failure is swallowed and never replaces or masks the fetch result. -/
theorem session_logout_always_runs {α : Type} (logoutRes : Except String Unit)
    (fetchRes : Except String α) :
    SessionEvent.logoutCall ∈ (fetch_with_session (.ok ()) logoutRes fetchRes).1 ∧
    (fetch_with_session (.ok ()) logoutRes fetchRes).2 = fetchRes := by
  cases logoutRes <;> simp [fetch_with_session, baostock_logout]

/-! ## C7 -/

/-- C7: the signal list's names form a sublist of the fixed order
(fractal signal first, then power signal), and each of the two entries is
present with value `v` exactly when its own computation returned `v` —
independently of whether the other computation failed; in particular both may
be absent. -/
theorem chan_basic_signals_fault_tolerant {V : Type} (fx_sig power_sig : Except String V) :
    List.Sublist ((chan_basic_signals fx_sig power_sig).map Prod.fst)
      ["cxt_fxs_fx_is_inside_b1", "bar_zdt_power_V230313"] ∧
    (∀ v : V, ("cxt_fxs_fx_is_inside_b1", v) ∈ chan_basic_signals fx_sig power_sig ↔
      fx_sig = .ok v) ∧
    (∀ v : V, ("bar_zdt_power_V230313", v) ∈ chan_basic_signals fx_sig power_sig ↔
      power_sig = .ok v) := by
  have hne : ("cxt_fxs_fx_is_inside_b1" : String) ≠ "bar_zdt_power_V230313" := by decide
  cases fx_sig <;> cases power_sig <;>
    simp [chan_basic_signals, hne, hne.symm, List.Sublist.refl, List.nil_sublist,
      Prod.ext_iff, eq_comm]

/-- C7 witness: with the fractal computation failing and the power computation
returning 7, the power signal is still present. -/
theorem chan_basic_signals_fault_tolerant_witness :
    ("bar_zdt_power_V230313", 7) ∈ chan_basic_signals (V := Nat) (.error "boom") (.ok 7) :=
  ((chan_basic_signals_fault_tolerant (.error "boom") (.ok 7)).2.2 7).mpr rfl

/-! ## C9 -/

/-- C9: two `get_bars` invocations with identical arguments against a provider
returning the same row data produce identical `count` values and identical bar
sequences. -/
theorem get_bars_idempotent (parseNum : String → Option Int) (parseDt : String → Option Nat)
    (symbol : String) (sd ed : Option String) (freq af : String)
    (rows₁ rows₂ : List ProviderRow) (p₁ p₂ : BarsPayload)
    (hrows : rows₁ = rows₂)
    (h₁ : get_bars_local parseNum parseDt symbol sd ed freq af rows₁ = .ok p₁)
    (h₂ : get_bars_local parseNum parseDt symbol sd ed freq af rows₂ = .ok p₂) :
    p₁.count = p₂.count ∧ p₁.bars = p₂.bars := by
  subst hrows
  rw [h₁] at h₂
  injection h₂ with h
  rw [h]
  exact ⟨rfl, rfl⟩

/-- C9 witness: two identical concrete invocations agree on `count` and
`bars`. -/
theorem get_bars_idempotent_witness :
    payloadGood.count = payloadGood.count ∧ payloadGood.bars = payloadGood.bars :=
  get_bars_idempotent pnTest pdTest "sh.600000" none none "d" "3" [rowGood] [rowGood]
    payloadGood payloadGood rfl (by decide) (by decide)

/-! ## C2 -/

/-- C2 counterexample: two provider rows with the same parseable timestamp
both survive `fetch_bars_df` — duplicate timestamps are not dropped — so the
resulting bar list is not strictly ascending in `dt` and two bars share one
`dt`. -/
theorem fetch_bars_duplicate_dt_cex :
    (to_rawbars (fetch_bars_df pnTest pdTest "d" [rowGood, rowGood2]) "sh.600000").map
        Bar.dt = [1, 1] ∧
    ¬ ((to_rawbars (fetch_bars_df pnTest pdTest "d" [rowGood, rowGood2]) "sh.600000").map
        Bar.dt).Pairwise (· < ·) := by
  constructor
  · decide
  · intro hp
    rw [show (to_rawbars (fetch_bars_df pnTest pdTest "d" [rowGood, rowGood2])
        "sh.600000").map Bar.dt = [1, 1] from by decide] at hp
    exact absurd ((List.pairwise_cons.mp hp).1 1 (by simp)) (lt_irrefl 1)

/-- C2 (amended): for every raw table the fetched rows, and the bar list
`to_rawbars` produces from them, are sorted ascending (non-strictly) by
timestamp, and every row whose timestamp failed to parse has been dropped;
rows with duplicate timestamps are all retained. -/
theorem fetch_bars_sorted_amended (parseNum : String → Option Int)
    (parseDt : String → Option Nat) (freq symbol : String) (rows : List ProviderRow) :
    (((to_rawbars (fetch_bars_df parseNum parseDt freq rows) symbol).map Bar.dt).Pairwise
      (· ≤ ·)) ∧
    (∀ r ∈ fetch_bars_df parseNum parseDt freq rows, r.datetime.isSome = true) := by
  constructor
  · have hp := pairwise_sortRows ((rows.map (coerce_row parseNum parseDt freq)).filter
      (fun r => r.datetime.isSome))
    rw [fetch_bars_df, to_rawbars, List.map_map, List.pairwise_map]
    refine hp.imp ?_
    intro a b hab
    simp only [rowLe, decide_eq_true_eq] at hab
    simpa using hab
  · intro r hr
    rw [fetch_bars_df] at hr
    have hr2 := mem_sortRows.mp hr
    exact (List.mem_filter.mp hr2).2

/-- C2 witness: on a concrete two-row table with equal timestamps the output
is sorted (non-strictly), and the surviving coerced row has a parsed
timestamp. -/
theorem fetch_bars_sorted_amended_witness :
    (((to_rawbars (fetch_bars_df pnTest pdTest "d" [rowGood, rowGood2]) "sh.600000").map
      Bar.dt).Pairwise (· ≤ ·)) ∧
    coercedGood.datetime.isSome = true :=
  ⟨(fetch_bars_sorted_amended pnTest pdTest "d" "sh.600000" [rowGood, rowGood2]).1,
   (fetch_bars_sorted_amended pnTest pdTest "d" "sh.600000" [rowGood]).2
     coercedGood (by decide)⟩

/-! ## C5 -/

/-- C5 counterexample: a provider row whose `open` field is not numeric but
whose date parses survives into the result (only unparseable timestamps are
dropped), and the emitted bar carries NaN — modelled as `none` — in `open`,
so "every surviving bar has finite open/high/low/close" is false. -/
theorem bars_nan_ohlc_cex :
    to_rawbars (fetch_bars_df pnTest pdTest "d" [rowBadOpen]) "sh.600000" =
      [⟨"sh.600000", "sh.600000", 1, none, some 3, some 3, some 3, some 3, some 3⟩] ∧
    (to_rawbars (fetch_bars_df pnTest pdTest "d" [rowBadOpen]) "sh.600000").map
      (fun b => b.«open») = [none] := by
  constructor
  · decide
  · decide

/-- C5 (amended): emitted `open/high/low/close` are always numeric values,
never strings (by construction of the pipeline), and they are finite for
every surviving row provided the raw numeric fields of the provider rows all
coerce successfully; a row with a non-coercible numeric field instead
survives with NaN in that field. -/
theorem bars_ohlc_finite_amended (parseNum : String → Option Int)
    (parseDt : String → Option Nat) (freq symbol : String) (rows : List ProviderRow)
    (h : ∀ r ∈ rows, (parseNum r.«open»).isSome ∧ (parseNum r.high).isSome ∧
          (parseNum r.low).isSome ∧ (parseNum r.close).isSome) :
    ∀ b ∈ to_rawbars (fetch_bars_df parseNum parseDt freq rows) symbol,
      b.«open».isSome ∧ b.high.isSome ∧ b.low.isSome ∧ b.close.isSome := by
  intro b hb
  simp only [to_rawbars, List.mem_map] at hb
  obtain ⟨r, hr, rfl⟩ := hb
  rw [fetch_bars_df] at hr
  have hr2 := mem_sortRows.mp hr
  obtain ⟨hr3, _⟩ := List.mem_filter.mp hr2
  simp only [List.mem_map] at hr3
  obtain ⟨p, hp, rfl⟩ := hr3
  simpa [coerce_row] using h p hp

/-- C5 witness: with a fully numeric concrete row the emitted bar's OHLC
fields are all finite. -/
theorem bars_ohlc_finite_amended_witness :
    barGood.«open».isSome ∧ barGood.high.isSome ∧ barGood.low.isSome ∧
      barGood.close.isSome :=
  bars_ohlc_finite_amended pnTest pdTest "d" "sh.600000" [rowGood] (by decide)
    barGood (by decide)

/-! ## Helper lemmas about the divergence classification. -/

theorem not_up_and_down (d : Option String) :
    ¬(isUpLabel d = true ∧ isDownLabel d = true) := by
  rintro ⟨hu, hd⟩
  rcases d with _ | s
  · simp [isUpLabel] at hu
  · simp only [isUpLabel, Bool.or_eq_true, beq_iff_eq, Option.some.injEq] at hu
    simp only [isDownLabel, Bool.or_eq_true, beq_iff_eq, Option.some.injEq] at hd
    rcases hu with rfl | rfl <;> rcases hd with h | h <;> exact absurd h (by decide)

theorem bear_cond_iff (d : Option String) (lh ll ph pl : Int) :
    (isUpLabel d && decide (lh ≤ ph) && decide (pyAbs (lh - ll) < pyAbs (ph - pl))) = true ↔
    (isUpLabel d = true ∧ lh ≤ ph ∧ pyAbs (lh - ll) < pyAbs (ph - pl)) := by
  simp [Bool.and_assoc, and_assoc]

theorem bull_cond_iff (d : Option String) (lh ll ph pl : Int) :
    (isDownLabel d && decide (pl ≤ ll) && decide (pyAbs (lh - ll) < pyAbs (ph - pl))) = true ↔
    (isDownLabel d = true ∧ pl ≤ ll ∧ pyAbs (lh - ll) < pyAbs (ph - pl)) := by
  simp [Bool.and_assoc, and_assoc]

theorem analyze_structure_bi_beichi (bi_list : List Stroke) (zs_list : List Center)
    (last prev : Stroke)
    (hlp : findLastPrev (bi_list.filter (fun b => recognizedDir b.direction)) =
      (some last, some prev)) :
    (analyze_structure bi_list zs_list "bi").beichi =
      match computeBeichi last prev with
      | .ok b => b
      | .error _ => none := by
  unfold analyze_structure
  rw [if_pos rfl]
  show (match findLastPrev (bi_list.filter (fun b => recognizedDir b.direction)) with
        | (some l, some p) =>
          (match computeBeichi l p with | .ok b => b | .error _ => none)
        | _ => none) = _
  rw [hlp]

theorem computeBeichi_num (last prev : Stroke) (lh ll ph pl : Int)
    (hlh : last.high = .num lh) (hll : last.low = .num ll)
    (hph : prev.high = .num ph) (hpl : prev.low = .num pl) :
    computeBeichi last prev =
      .ok (if (isUpLabel last.direction && decide (lh ≤ ph) &&
               decide (pyAbs (lh - ll) < pyAbs (ph - pl))) ||
              (isDownLabel last.direction && decide (pl ≤ ll) &&
               decide (pyAbs (lh - ll) < pyAbs (ph - pl))) then
        some { type := if isUpLabel last.direction && decide (lh ≤ ph) &&
                   decide (pyAbs (lh - ll) < pyAbs (ph - pl)) then "bearish" else "bullish",
               last_start := last.start_dt, last_end := last.end_dt,
               prev_start := prev.start_dt, prev_end := prev.end_dt }
      else none) := by
  unfold computeBeichi
  rw [hlh, hll, hph, hpl]
  simp only [pyFloat]
  split <;> rfl

theorem beichi_ite_cases (bear bull : Bool) (ls le ps pe : Option String)
    (hnot : ¬(bear = true ∧ bull = true)) :
    ((if bear || bull then
        some (Beichi.mk (if bear then "bearish" else "bullish") ls le ps pe)
      else none) = some (Beichi.mk "bearish" ls le ps pe) ↔ bear = true) ∧
    ((if bear || bull then
        some (Beichi.mk (if bear then "bearish" else "bullish") ls le ps pe)
      else none) = some (Beichi.mk "bullish" ls le ps pe) ↔ bull = true) ∧
    ((if bear || bull then
        some (Beichi.mk (if bear then "bearish" else "bullish") ls le ps pe)
      else none) = none ↔ ¬(bear = true) ∧ ¬(bull = true)) := by
  have hne : ("bearish" : String) ≠ "bullish" := by decide
  cases bear <;> cases bull <;> simp_all [Beichi.mk.injEq]

/-! ## C1 -/

/-- C1: with `last` the most recent recognized-direction stroke and `prev` the
nearest earlier stroke of the same direction (as produced by the backward
scan), and with all four extremes float-convertible, the result's `beichi` is
the bearish record (with the four endpoint timestamps) exactly when `last` is
an up-stroke with `last.high ≤ prev.high` and strictly smaller swing length,
the bullish record exactly when `last` is a down-stroke with
`last.low ≥ prev.low` and strictly smaller swing length, and `null` exactly
when neither classification holds. -/
theorem analyze_structure_beichi_classification (bi_list : List Stroke)
    (zs_list : List Center) (last prev : Stroke) (lh ll ph pl : Int)
    (hlp : findLastPrev (bi_list.filter (fun b => recognizedDir b.direction)) =
      (some last, some prev))
    (hlh : last.high = .num lh) (hll : last.low = .num ll)
    (hph : prev.high = .num ph) (hpl : prev.low = .num pl) :
    ((analyze_structure bi_list zs_list "bi").beichi =
        some ⟨"bearish", last.start_dt, last.end_dt, prev.start_dt, prev.end_dt⟩ ↔
      (isUpLabel last.direction = true ∧ lh ≤ ph ∧ pyAbs (lh - ll) < pyAbs (ph - pl))) ∧
    ((analyze_structure bi_list zs_list "bi").beichi =
        some ⟨"bullish", last.start_dt, last.end_dt, prev.start_dt, prev.end_dt⟩ ↔
      (isDownLabel last.direction = true ∧ pl ≤ ll ∧ pyAbs (lh - ll) < pyAbs (ph - pl))) ∧
    ((analyze_structure bi_list zs_list "bi").beichi = none ↔
      ¬(isUpLabel last.direction = true ∧ lh ≤ ph ∧ pyAbs (lh - ll) < pyAbs (ph - pl)) ∧
      ¬(isDownLabel last.direction = true ∧ pl ≤ ll ∧
        pyAbs (lh - ll) < pyAbs (ph - pl))) := by
  have hnot : ¬((isUpLabel last.direction && decide (lh ≤ ph) &&
        decide (pyAbs (lh - ll) < pyAbs (ph - pl))) = true ∧
      (isDownLabel last.direction && decide (pl ≤ ll) &&
        decide (pyAbs (lh - ll) < pyAbs (ph - pl))) = true) := by
    rintro ⟨hb1, hb2⟩
    exact not_up_and_down last.direction
      ⟨((bear_cond_iff _ _ _ _ _).mp hb1).1, ((bull_cond_iff _ _ _ _ _).mp hb2).1⟩
  have hb2 : (analyze_structure bi_list zs_list "bi").beichi =
      (if (isUpLabel last.direction && decide (lh ≤ ph) &&
           decide (pyAbs (lh - ll) < pyAbs (ph - pl))) ||
          (isDownLabel last.direction && decide (pl ≤ ll) &&
           decide (pyAbs (lh - ll) < pyAbs (ph - pl))) then
        some (Beichi.mk (if isUpLabel last.direction && decide (lh ≤ ph) &&
              decide (pyAbs (lh - ll) < pyAbs (ph - pl)) then "bearish" else "bullish")
          last.start_dt last.end_dt prev.start_dt prev.end_dt)
      else none) := by
    rw [analyze_structure_bi_beichi bi_list zs_list last prev hlp,
      computeBeichi_num last prev lh ll ph pl hlh hll hph hpl]
  rw [hb2]
  have h3 := beichi_ite_cases
    (isUpLabel last.direction && decide (lh ≤ ph) &&
      decide (pyAbs (lh - ll) < pyAbs (ph - pl)))
    (isDownLabel last.direction && decide (pl ≤ ll) &&
      decide (pyAbs (lh - ll) < pyAbs (ph - pl)))
    last.start_dt last.end_dt prev.start_dt prev.end_dt hnot
  exact ⟨h3.1.trans (bear_cond_iff _ _ _ _ _),
         h3.2.1.trans (bull_cond_iff _ _ _ _ _),
         h3.2.2.trans (and_congr (not_congr (bear_cond_iff _ _ _ _ _))
           (not_congr (bull_cond_iff _ _ _ _ _)))⟩

/-- C1 witness: two consecutive up-strokes — the later with lower high (9 ≤
10) and strictly smaller swing (4 < 10) — classify as a bearish divergence
carrying the four endpoint timestamps. -/
theorem analyze_structure_beichi_classification_witness :
    (analyze_structure [upStrokeA, upStrokeB] [] "bi").beichi =
      some ⟨"bearish", some "2024-01-03T00:00:00", some "2024-01-04T00:00:00",
            some "2024-01-01T00:00:00", some "2024-01-02T00:00:00"⟩ :=
  (analyze_structure_beichi_classification [upStrokeA, upStrokeB] [] upStrokeB upStrokeA
      9 5 10 0 (by decide) rfl rfl rfl rfl).1.mpr (by decide)

/-! ## C8 -/

/-- C8: any failure inside the divergence computation (an exception from the
numeric conversions/comparison of the last/prev pair) results in `beichi`
being `null` rather than an error, and empty stroke and center lists are not
an error — the analysis returns empty `items` and `null` `beichi`. -/
theorem analyze_structure_fault_tolerance (bi_list : List Stroke)
    (zs_list : List Center) (level : String) :
    (∀ last prev msg,
      findLastPrev (bi_list.filter (fun b => recognizedDir b.direction)) =
        (some last, some prev) →
      computeBeichi last prev = .error msg →
      (analyze_structure bi_list zs_list level).beichi = none) ∧
    analyze_structure ([] : List Stroke) ([] : List Center) level = ⟨[], none⟩ := by
  constructor
  · intro last prev msg hlp hc
    by_cases hl : level = "bi"
    · subst hl
      rw [analyze_structure_bi_beichi bi_list zs_list last prev hlp, hc]
    · unfold analyze_structure
      rw [if_neg hl]
  · by_cases hl : level = "bi"
    · subst hl
      decide
    · unfold analyze_structure
      rw [if_neg hl]
      rfl

/-- C8 witness: a last stroke with a non-convertible `high` makes the
divergence computation raise, and the analysis yields `beichi = null` instead
of propagating. -/
theorem analyze_structure_fault_tolerance_witness :
    (analyze_structure [upStrokeA, upStrokeBad] [] "bi").beichi = none :=
  (analyze_structure_fault_tolerance [upStrokeA, upStrokeBad] [] "bi").1 upStrokeBad
    upStrokeA "float conversion failed" (by decide) (by decide)

/-! ## Helper lemma about the `get_bars` payload. -/

theorem get_bars_symbol (parseNum : String → Option Int) (parseDt : String → Option Nat)
    (symbol : String) (sd ed : Option String) (freq af : String)
    (rows : List ProviderRow) (payload : BarsPayload)
    (hp : get_bars_local parseNum parseDt symbol sd ed freq af rows = .ok payload) :
    payload.symbol = normalize_symbol symbol := by
  unfold get_bars_local at hp
  cases hmf : map_freq_to_baostock freq with
  | error e =>
    rw [hmf] at hp
    exact Except.noConfusion hp
  | ok bo =>
    rw [hmf] at hp
    injection hp with h
    rw [← h]

/-! ## C4 -/

/-- C4 counterexample: with an empty provider result the structure tool's
short-circuit response contains only the five fields
`symbol, freq, level, items, beichi` — the `count` field is missing — so the
claim that every response carries all six fields is false. -/
theorem chan_structure_missing_count_cex :
    chan_structure_local pnTest pdTest "sh.600000" none none "d" "3" "bi" []
        (fun _ => []) (fun _ => []) =
      .ok [("symbol", .vstr "sh.600000"), ("freq", .vstr "d"), ("level", .vstr "bi"),
           ("items", .vitems []), ("beichi", .vbeichi none)] ∧
    "count" ∉ respKeys (chan_structure_local pnTest pdTest "sh.600000" none none "d" "3"
      "bi" [] (fun _ => []) (fun _ => [])) := by
  constructor
  · decide
  · decide

/-- C4 (amended): when bars were fetched, the structure tool's response
carries all six fields `symbol, freq, level, count, items, beichi`; the
no-bars short-circuit instead carries exactly the five fields
`symbol, freq, level, items, beichi` — with empty `items` and null `beichi`
but no `count`. -/
theorem chan_structure_fields_amended (parseNum : String → Option Int)
    (parseDt : String → Option Nat) (symbol : String) (sd ed : Option String)
    (freq af level : String) (rows : List ProviderRow)
    (bi_of : List Bar → List Stroke) (zs_of : List Bar → List Center)
    (payload : BarsPayload)
    (hp : get_bars_local parseNum parseDt symbol sd ed freq af rows = .ok payload) :
    (payload.bars = [] →
      chan_structure_local parseNum parseDt symbol sd ed freq af level rows bi_of zs_of =
        .ok [("symbol", .vstr symbol), ("freq", .vstr freq), ("level", .vstr level),
             ("items", .vitems []), ("beichi", .vbeichi none)]) ∧
    (payload.bars ≠ [] →
      respKeys (chan_structure_local parseNum parseDt symbol sd ed freq af level rows
          bi_of zs_of) =
        ["symbol", "freq", "level", "count", "items", "beichi"]) := by
  constructor
  · intro hempty
    unfold chan_structure_local
    rw [hp]
    simp [hempty]
  · intro hne
    have hf : payload.bars.isEmpty = false := by
      simp [Bool.eq_false_iff, List.isEmpty_iff, hne]
    unfold chan_structure_local
    rw [hp]
    simp [respKeys, hf]

/-- C4 witness: the empty-bars and one-bar concrete invocations exhibit the
five-field short-circuit and the six-field normal response respectively. -/
theorem chan_structure_fields_amended_witness :
    chan_structure_local pnTest pdTest "sh.600000" none none "d" "3" "zs" []
        (fun _ => []) (fun _ => []) =
      .ok [("symbol", .vstr "sh.600000"), ("freq", .vstr "d"), ("level", .vstr "zs"),
           ("items", .vitems []), ("beichi", .vbeichi none)] ∧
    respKeys (chan_structure_local pnTest pdTest "sh.600000" none none "d" "3" "bi"
        [rowGood] (fun _ => []) (fun _ => [])) =
      ["symbol", "freq", "level", "count", "items", "beichi"] :=
  ⟨(chan_structure_fields_amended pnTest pdTest "sh.600000" none none "d" "3" "zs" []
      (fun _ => []) (fun _ => []) payloadEmpty (by decide)).1 rfl,
   (chan_structure_fields_amended pnTest pdTest "sh.600000" none none "d" "3" "bi"
      [rowGood] (fun _ => []) (fun _ => []) payloadGood (by decide)).2 (by decide)⟩

/-! ## C10 -/

/-- C10: the no-bars short-circuit responses of the signals and structure
tools carry the caller's raw input symbol, while every non-empty response
carries the normalized symbol; and normalization actually changes inputs such
as `"SH_600000"`, so the two cases can disagree. -/
theorem tool_symbol_normalization (parseNum : String → Option Int)
    (parseDt : String → Option Nat) (symbol : String) (sd ed : Option String)
    (freq af level : String) (rows : List ProviderRow)
    (fx_sig power_sig : Except String Nat)
    (bi_of : List Bar → List Stroke) (zs_of : List Bar → List Center)
    (payload : BarsPayload)
    (hp : get_bars_local parseNum parseDt symbol sd ed freq af rows = .ok payload) :
    (payload.bars = [] →
      respLookup "symbol" (chan_signals_local parseNum parseDt symbol sd ed freq af rows
          fx_sig power_sig) = some (.vstr symbol) ∧
      respLookup "symbol" (chan_structure_local parseNum parseDt symbol sd ed freq af
          level rows bi_of zs_of) = some (.vstr symbol)) ∧
    (payload.bars ≠ [] →
      respLookup "symbol" (chan_signals_local parseNum parseDt symbol sd ed freq af rows
          fx_sig power_sig) = some (.vstr (normalize_symbol symbol)) ∧
      respLookup "symbol" (chan_structure_local parseNum parseDt symbol sd ed freq af
          level rows bi_of zs_of) = some (.vstr (normalize_symbol symbol))) ∧
    normalize_symbol "SH_600000" ≠ "SH_600000" := by
  have hsym := get_bars_symbol parseNum parseDt symbol sd ed freq af rows payload hp
  refine ⟨?_, ?_, by decide⟩
  · intro hempty
    constructor
    · unfold chan_signals_local
      rw [hp]
      simp [hempty, respLookup, List.lookup]
    · unfold chan_structure_local
      rw [hp]
      simp [hempty, respLookup, List.lookup]
  · intro hne
    have hf : payload.bars.isEmpty = false := by
      simp [Bool.eq_false_iff, List.isEmpty_iff, hne]
    constructor
    · unfold chan_signals_local
      rw [hp]
      simp [respLookup, List.lookup, hf, hsym]
    · unfold chan_structure_local
      rw [hp]
      simp [respLookup, List.lookup, hf, hsym]

/-- C10 witness: for the raw input `"SH_600000"` the empty short-circuit
response echoes `"SH_600000"` while the non-empty response carries the
normalized `"sh.600000"` — and the two differ. -/
theorem tool_symbol_normalization_witness :
    respLookup "symbol" (chan_signals_local pnTest pdTest "SH_600000" none none "d" "3"
        [] (.ok 0) (.ok 0)) = some (.vstr "SH_600000") ∧
    respLookup "symbol" (chan_structure_local pnTest pdTest "SH_600000" none none "d" "3"
        "bi" [rowGood] (fun _ => []) (fun _ => [])) =
      some (.vstr (normalize_symbol "SH_600000")) ∧
    normalize_symbol "SH_600000" ≠ "SH_600000" :=
  ⟨((tool_symbol_normalization pnTest pdTest "SH_600000" none none "d" "3" "bi" []
      (.ok 0) (.ok 0) (fun _ => []) (fun _ => []) payloadEmpty (by decide)).1 rfl).1,
   ((tool_symbol_normalization pnTest pdTest "SH_600000" none none "d" "3" "bi" [rowGood]
      (.ok 0) (.ok 0) (fun _ => []) (fun _ => []) payloadGood (by decide)).2.1
        (by decide)).2,
   (tool_symbol_normalization pnTest pdTest "SH_600000" none none "d" "3" "bi" []
      (.ok 0) (.ok 0) (fun _ => []) (fun _ => []) payloadEmpty (by decide)).2.2⟩

end ChanMcp
